import Mathlib

/-!
Shallow embedding of the email-sending-service orchestration layer:
the idempotency-guarded send dispatcher (src/routes/send.ts with the
idempotency store), the signature composer (src/lib/signature.ts), the
stats aggregator (the /stats route: normalizePayload, handleFlat,
handleGrouped) and the status merger (src/routes/status.ts).

Remote provider calls (postmark-client.sendEmail, instantly-client.atomicSend,
brand-client.getBrand, the two getStats / getStatus queries) are modelled as
outcome oracles: an `Except String X` value is the settled outcome of the
corresponding network call (`.error msg` is a rejected promise / thrown
`Error` with that message).  JavaScript `undefined`/`null` optionality is
modelled with `Option`, JS `Map` with an insertion-ordered association list
(`set` updates in place, first match wins on lookup), and `Date.now()` with an
explicit `now : Nat` argument.
-/

namespace EmailSvc

set_option maxRecDepth 40000

/-- The two send channels (schemas.ts `EmailTypeSchema`). -/
inductive EmailType where
  | transactional
  | broadcast
deriving DecidableEq, Repr

/-- schemas.ts `SendResponse`: optional fields default to absent. -/
structure SendResponse where
  success : Bool
  provider : EmailType
  messageId : Option String := none
  campaignId : Option String := none
  error : Option String := none
  deduplicated : Option Bool := none
deriving DecidableEq, Repr

/-! ## Idempotency store (lib/idempotency-store.ts) -/

/-- A stored idempotency entry (`StoredEntry` in idempotency-store.ts). -/
structure StoredEntry where
  response : SendResponse
  statusCode : Nat
  expiresAt : Nat
deriving DecidableEq, Repr

/-- The module-level `Map<string, StoredEntry>`, as an insertion-ordered
association list with unique keys. -/
abbrev Store := List (String × StoredEntry)

/-- `TTL_MS = 24 * 60 * 60 * 1000` (24 hours). -/
def TTL_MS : Nat := 24 * 60 * 60 * 1000

/-- JS `Map.get`: first (unique) matching key. -/
def storeLookup : Store → String → Option StoredEntry
  | [], _ => none
  | (k', e) :: rest, k => if k' = k then some e else storeLookup rest k

/-- JS `Map.delete`: remove the (unique) matching key. -/
def storeErase : Store → String → Store
  | [], _ => []
  | (k', e) :: rest, k => if k' = k then rest else (k', e) :: storeErase rest k

/-- JS `Map.set`: update in place when the key exists, else append. -/
def storeUpsert : Store → String → StoredEntry → Store
  | [], k, e => [(k, e)]
  | (k', e') :: rest, k, e =>
      if k' = k then (k, e) :: rest else (k', e') :: storeUpsert rest k e

/-- idempotency-store.ts `get`: absent keys and expired entries read as
absent; an expired entry is purged on access.  Returns the looked-up entry
together with the (possibly purged) store. -/
def idemGet (s : Store) (k : String) (now : Nat) : Option StoredEntry × Store :=
  match storeLookup s k with
  | none => (none, s)
  | some e => if now > e.expiresAt then (none, storeErase s k) else (some e, s)

/-- idempotency-store.ts `set`: store with a fresh 24h expiry. -/
def idemSet (s : Store) (k : String) (statusCode : Nat) (r : SendResponse)
    (now : Nat) : Store :=
  storeUpsert s k ⟨r, statusCode, now + TTL_MS⟩

/-- idempotency-store.ts `cleanup`: the hourly sweep removing expired
entries. -/
def idemCleanup (s : Store) (now : Nat) : Store :=
  s.filter fun kv => !(now > kv.2.expiresAt)

/-! ## Provider adapter contracts -/

/-- instantly-client.ts `AtomicSendResponse` (`leadId : string | null`). -/
structure AtomicSendResponse where
  success : Bool
  campaignId : String
  leadId : Option String
  added : Nat
deriving DecidableEq, Repr

/-- postmark-client.ts `sendEmail` response: the send route only reads
`messageId` (optional). -/
structure PostmarkSendResult where
  messageId : Option String := none
deriving DecidableEq, Repr

/-- brand-client.ts `BrandDetail` (fields other than `brandUrl` are unused by
the send route). -/
structure BrandDetail where
  brandUrl : Option String := none
deriving DecidableEq, Repr

/-- Settled outcomes of the three remote calls a single send request can
make.  `.error msg` is a rejected/thrown call. -/
structure ProviderEnv where
  brand : Except String BrandDetail
  postmark : Except String PostmarkSendResult
  instantly : Except String AtomicSendResponse

/-! ## Signature composer (lib/signature.ts) -/

/-- `MCPFACTORY_APP_ID = "mcpfactory"`. -/
def MCPFACTORY_APP_ID : String := "mcpfactory"

/-- JS string truthiness for an optional string (`brandUrl || fallback`,
`if (body.idempotencyKey)`, ...): present and non-empty. -/
def truthyString : Option String → Option String
  | none => none
  | some s => if s = "" then none else some s

/-- lib/signature.ts `buildMcpFactorySignature`: the full branded signature
block, joined from the same parts as the source array (literal `{` and `}`
written with escapes). -/
def buildMcpFactorySignature (type : EmailType) (brandUrl : Option String) :
    String :=
  let brandDisplay := (truthyString brandUrl).getD "BRAND_URL"
  let brandHref := (truthyString brandUrl).getD "BRAND_URL"
  let unsubscribeBlock :=
    if type = .transactional then
      "<table cellpadding=\"0\" cellspacing=\"0\" border=\"0\" style=\"border-collapse:collapse;font-family:Inter,system-ui,-apple-system,sans-serif\"><tr><td style=\"font-size:11px;color:#cbd5e1;padding-top:4px\"><a href=\"\x7b\x7b\x7bpm:unsubscribe\x7d\x7d\x7d\" style=\"color:#cbd5e1;text-decoration:underline\">Unsubscribe</a> to stop receiving sales cold emails from us</td></tr></table>"
    else ""
  String.join [
    "<table cellpadding=\"0\" cellspacing=\"0\" border=\"0\" width=\"100%\" style=\"border-collapse:collapse\"><tr><td style=\"padding:24px 0 0\">",
    "<table cellpadding=\"0\" cellspacing=\"0\" border=\"0\" style=\"border-collapse:collapse;border-top:1px solid #e2e8f0;width:100%\"><tr><td style=\"padding:16px 0 0\">",
    "<table cellpadding=\"0\" cellspacing=\"0\" border=\"0\" style=\"border-collapse:collapse;font-family:Inter,system-ui,-apple-system,sans-serif\">",
    "<tr>",
    "<td style=\"padding-right:14px;vertical-align:top\">",
    "<img src=\"https://media.licdn.com/dms/image/v2/D4E03AQExHRKHGkfXdA/profile-displayphoto-shrink_200_200/profile-displayphoto-shrink_200_200/0/1696248223118?e=2147483647&v=beta&t=B8ASFxYpZNDdcCSZ3NS_-OhnBgDYQPb4Z5HuIjsBrrE\" alt=\"\" width=\"52\" height=\"52\" style=\"border-radius:50%;display:block\" />",
    "</td>",
    "<td style=\"vertical-align:top;font-size:13px;line-height:1.3\">",
    "<span style=\"font-weight:600;color:#0f172a;display:block\">Kevin Lourd</span>",
    "<span style=\"color:#64748b;display:block;padding-top:1px\">Growth<span style=\"color:#10b981;font-weight:600\">Agency</span>.dev</span>",
    "<a href=\"https://growthagency.dev\" style=\"color:#10b981;text-decoration:none;font-size:12px;display:block;padding-top:2px\">growthagency.dev</a>",
    "</td>",
    "</tr>",
    "</table>",
    "</td></tr></table>",
    "<table cellpadding=\"0\" cellspacing=\"0\" border=\"0\" style=\"border-collapse:collapse;font-family:Inter,system-ui,-apple-system,sans-serif;padding-top:10px\"><tr><td style=\"font-size:11px;color:#94a3b8;padding-top:10px;font-style:italic\">",
    "Email generated with AI on behalf of our client: <a href=\"" ++ brandHref ++ "\" style=\"color:#94a3b8;text-decoration:underline\">" ++ brandDisplay ++ "</a>",
    "</td></tr></table>",
    unsubscribeBlock,
    "</td></tr></table>"
  ]

/-- lib/signature.ts `buildDefaultFooter`: minimal unsubscribe-only footer for
transactional, empty otherwise. -/
def buildDefaultFooter (type : EmailType) : String :=
  if type ≠ .transactional then ""
  else
    "<table cellpadding=\"0\" cellspacing=\"0\" border=\"0\" width=\"100%\" style=\"border-collapse:collapse\"><tr><td style=\"padding:24px 0 0;text-align:center\"><span style=\"font-size:11px;color:#9ca3af;font-family:sans-serif\"><a href=\"\x7b\x7b\x7bpm:unsubscribe\x7d\x7d\x7d\" style=\"color:#9ca3af;text-decoration:underline\">Unsubscribe</a></span></td></tr></table>"

/-- lib/signature.ts `buildSignature`. -/
def buildSignature (type : EmailType) (appId : String) (brandUrl : Option String) :
    String :=
  if type = .broadcast then ""
  else if appId = MCPFACTORY_APP_ID then buildMcpFactorySignature type brandUrl
  else buildDefaultFooter type

/-- lib/signature.ts `appendSignature` (`if (!htmlBody) return undefined`
treats the empty string as absent too). -/
def appendSignature (htmlBody : Option String) (type : EmailType)
    (appId : String) (brandUrl : Option String) : Option String :=
  match truthyString htmlBody with
  | none => none
  | some hb =>
      let footer := buildSignature type appId brandUrl
      if footer = "" then some hb else some (hb ++ footer)

/-! ## Send orchestrator (routes/send.ts) -/

/-- The fields of a validated `SendRequest` that the route's control flow and
response shaping read.  Fields that are merely forwarded to the provider
(subject, bodies, recipient attributes, correlation ids, sequence steps, ...)
are absorbed by the provider outcome oracle. -/
structure SendBody where
  type : EmailType
  appId : String
  brandId : Option String := none
  htmlBody : Option String := none
  idempotencyKey : Option String := none

/-- HTTP body of a `/send` response: either a `SendResponse` JSON value
(`res.json(...)`) or the 502 `{error: "Upstream service error", details}`
object from the catch block. -/
inductive SendHttpBody where
  | ok (r : SendResponse)
  | fail (error : String) (details : String)
deriving DecidableEq, Repr

/-- HTTP status plus body for `/send`. -/
structure SendHttp where
  status : Nat
  body : SendHttpBody
deriving DecidableEq, Repr

/-- Result of running the send route once: the HTTP response, the idempotency
store afterwards, and how many email-provider dispatches
(postmark `sendEmail` / instantly `atomicSend`) were made. -/
structure SendOutcome where
  http : SendHttp
  store : Store
  dispatches : Nat
deriving Repr

/-- `idempotencyStore.set` guarded by `if (body.idempotencyKey)`. -/
def cacheIfKey (keyOpt : Option String) (store : Store) (statusCode : Nat)
    (r : SendResponse) (now : Nat) : Store :=
  match keyOpt with
  | some k => idemSet store k statusCode r now
  | none => store

/-- The `try` block of routes/send.ts after the idempotency check: brand
lookup (transactional only, best effort), signature composition, provider
dispatch, response shaping, cache write for terminal outcomes, 502 on a
thrown provider call. -/
def dispatchSend (env : ProviderEnv) (body : SendBody) (keyOpt : Option String)
    (store : Store) (now : Nat) : SendOutcome :=
  match body.type with
  | .transactional =>
      let brandUrl : Option String :=
        match truthyString body.brandId with
        | some _ =>
            match env.brand with
            | .ok b => b.brandUrl
            | .error _ => none
        | none => none
      let _htmlWithSignature :=
        appendSignature body.htmlBody body.type body.appId brandUrl
      match env.postmark with
      | .error msg =>
          ⟨⟨502, .fail "Upstream service error" msg⟩, store, 1⟩
      | .ok result =>
          let response : SendResponse :=
            { success := true, provider := .transactional,
              messageId := result.messageId }
          ⟨⟨200, .ok response⟩, cacheIfKey keyOpt store 200 response now, 1⟩
  | .broadcast =>
      match env.instantly with
      | .error msg =>
          ⟨⟨502, .fail "Upstream service error" msg⟩, store, 1⟩
      | .ok result =>
          if result.added = 0 then
            let response : SendResponse :=
              { success := false, provider := .broadcast,
                error := some "Lead was not added to campaign (possibly duplicate)",
                campaignId := some result.campaignId }
            ⟨⟨409, .ok response⟩, cacheIfKey keyOpt store 409 response now, 1⟩
          else
            let response : SendResponse :=
              { success := true, provider := .broadcast,
                messageId := result.leadId,
                campaignId := some result.campaignId }
            ⟨⟨200, .ok response⟩, cacheIfKey keyOpt store 200 response now, 1⟩

/-- routes/send.ts `router.post("/send")` after validation: idempotency
lookup short-circuits to the cached `(statusCode, response)` annotated
`deduplicated: true`; otherwise dispatch. -/
def handleSend (env : ProviderEnv) (body : SendBody) (store : Store)
    (now : Nat) : SendOutcome :=
  match truthyString body.idempotencyKey with
  | some k =>
      match idemGet store k now with
      | (some cached, s1) =>
          ⟨⟨cached.statusCode,
            .ok { cached.response with deduplicated := some true }⟩, s1, 0⟩
      | (none, s1) => dispatchSend env body (some k) s1 now
  | none => dispatchSend env body none store now

/-! ## Stats aggregator (the /stats route, with lib client stats contracts) -/

/-- instantly-client.ts `ProviderStatsPayload`: six mandatory core counters
and optional reply-subtype counters. -/
structure ProviderStatsPayload where
  emailsSent : Nat
  emailsDelivered : Nat
  emailsOpened : Nat
  emailsClicked : Nat
  emailsReplied : Nat
  emailsBounced : Nat
  repliesAutoReply : Option Nat := none
  repliesWillingToMeet : Option Nat := none
  repliesInterested : Option Nat := none
  repliesNotInterested : Option Nat := none
  repliesOutOfOffice : Option Nat := none
  repliesUnsubscribe : Option Nat := none
deriving DecidableEq, Repr

/-- schemas.ts `Stats`: the fully-populated normalized shape. -/
structure Stats where
  emailsSent : Nat
  emailsDelivered : Nat
  emailsOpened : Nat
  emailsClicked : Nat
  emailsReplied : Nat
  emailsBounced : Nat
  repliesWillingToMeet : Nat
  repliesInterested : Nat
  repliesNotInterested : Nat
  repliesOutOfOffice : Nat
  repliesUnsubscribe : Nat
  recipients : Nat
deriving DecidableEq, Repr

/-- instantly-client.ts `ProviderStepStats`. -/
structure ProviderStepStats where
  step : Nat
  emailsSent : Nat
  emailsOpened : Nat
  emailsReplied : Nat
  emailsBounced : Nat
deriving DecidableEq, Repr

/-- instantly-client.ts `ProviderStatsFlat`. -/
structure ProviderStatsFlat where
  stats : ProviderStatsPayload
  recipients : Option Nat := none
  stepStats : Option (List ProviderStepStats) := none
deriving DecidableEq, Repr

/-- One group of instantly-client.ts `ProviderStatsGrouped`. -/
structure StatsGroupRaw where
  key : String
  stats : ProviderStatsPayload
  recipients : Option Nat := none
deriving DecidableEq, Repr

/-- instantly-client.ts `ProviderStatsResult = ProviderStatsFlat |
ProviderStatsGrouped` (the `isGrouped` type guard checks for `groups`). -/
inductive ProviderStatsResult where
  | flat (f : ProviderStatsFlat)
  | grouped (groups : List StatsGroupRaw)
deriving DecidableEq, Repr

/-- schemas.ts `BroadcastStats`: `Stats` plus an optional per-step
breakdown. -/
structure BroadcastStats where
  stats : Stats
  stepStats : Option (List ProviderStepStats) := none
deriving DecidableEq, Repr

/-- stats route `normalizePayload`: defaults each optional reply-subtype
counter to 0 and falls back to the sent counter when no explicit recipients
count accompanies the payload. -/
def normalizePayload (raw : ProviderStatsPayload) (recipients : Option Nat) :
    Stats where
  emailsSent := raw.emailsSent
  emailsDelivered := raw.emailsDelivered
  emailsOpened := raw.emailsOpened
  emailsClicked := raw.emailsClicked
  emailsReplied := raw.emailsReplied
  emailsBounced := raw.emailsBounced
  repliesWillingToMeet := raw.repliesWillingToMeet.getD 0
  repliesInterested := raw.repliesInterested.getD 0
  repliesNotInterested := raw.repliesNotInterested.getD 0
  repliesOutOfOffice := raw.repliesOutOfOffice.getD 0
  repliesUnsubscribe := raw.repliesUnsubscribe.getD 0
  recipients := recipients.getD raw.emailsSent

/-- stats route `normalizeBroadcastFlat`. -/
def normalizeBroadcastFlat (raw : ProviderStatsFlat) : BroadcastStats :=
  ⟨normalizePayload raw.stats raw.recipients, raw.stepStats⟩

/-- stats route `normalizeFlatResult`: the source casts unconditionally to
the flat shape; on a grouped value reading `.stats` of `undefined` throws a
`TypeError`, modelled as `.error`. -/
def normalizeFlatResult : ProviderStatsResult → Except String Stats
  | .flat f => .ok (normalizePayload f.stats f.recipients)
  | .grouped _ => .error "TypeError: Cannot read properties of undefined"

/-- Per-channel value in the flat aggregate response: normalized stats (with
step breakdown on the broadcast side) or the `\x7berror: message\x7d` object
written for a rejected provider. -/
inductive ChannelField where
  | stats (s : Stats)
  | broadcastStats (s : BroadcastStats)
  | err (message : String)
deriving DecidableEq, Repr

/-- One group of the merged grouped response (schemas.ts `StatsGroup`). -/
structure StatsGroupOut where
  key : String
  transactional : Option Stats := none
  broadcast : Option Stats := none
deriving DecidableEq, Repr

/-- HTTP body of a `/stats` response. -/
inductive StatsBody where
  | flatSingleT (s : Stats)
  | flatSingleB (s : BroadcastStats)
  | flatAgg (transactional broadcast : ChannelField)
  | groups (gs : List StatsGroupOut)
  | fetchFailed (details : String)
deriving DecidableEq, Repr

/-- HTTP status plus body for `/stats`. -/
structure StatsHttp where
  status : Nat
  body : StatsBody
deriving DecidableEq, Repr

/-- Value type of the grouped-merge `Map<string, \x7btransactional?,
broadcast?\x7d>`. -/
structure MergedVal where
  transactional : Option Stats := none
  broadcast : Option Stats := none
deriving DecidableEq, Repr

/-- The merge map, insertion-ordered with unique keys (JS `Map`). -/
abbrev MergedMap := List (String × MergedVal)

/-- JS `Map.get` on the merge map. -/
def mergedLookup : MergedMap → String → Option MergedVal
  | [], _ => none
  | (k', v) :: rest, k => if k' = k then some v else mergedLookup rest k

/-- JS `Map.set` on the merge map. -/
def mergedUpsert : MergedMap → String → MergedVal → MergedMap
  | [], k, v => [(k, v)]
  | (k', v') :: rest, k, v =>
      if k' = k then (k, v) :: rest else (k', v') :: mergedUpsert rest k v

/-- First loop of the grouped merge:
`merged.set(g.key, \x7b transactional: normalizePayload(...) \x7d)` — a
wholesale overwrite per transactional group. -/
def addTransactionalGroups (m : MergedMap) (gs : List StatsGroupRaw) :
    MergedMap :=
  gs.foldl (fun m g =>
    mergedUpsert m g.key ⟨some (normalizePayload g.stats g.recipients), none⟩) m

/-- Second loop of the grouped merge: fetch the existing entry (or a fresh
object), set its `broadcast` field, write back. -/
def addBroadcastGroups (m : MergedMap) (gs : List StatsGroupRaw) : MergedMap :=
  gs.foldl (fun m g =>
    let existing := (mergedLookup m g.key).getD ⟨none, none⟩
    mergedUpsert m g.key
      { existing with broadcast := some (normalizePayload g.stats g.recipients) }) m

/-- Groups contributed by one provider in merged grouped mode: only a
fulfilled, grouped result contributes (`status === "fulfilled" &&
isGrouped(...)`); rejected or flat results contribute nothing. -/
def groupedContribution : Except String ProviderStatsResult → List StatsGroupRaw
  | .ok (.grouped gs) => gs
  | _ => []

/-- The merged map of `handleGrouped` in no-channel mode, from the two
settled provider outcomes (postmark processed first, as in the source). -/
def mergeGroupsByKey (p i : Except String ProviderStatsResult) : MergedMap :=
  addBroadcastGroups (addTransactionalGroups [] (groupedContribution p))
    (groupedContribution i)

/-- `Array.from(merged.entries()).map(([key, value]) => (\x7bkey, ...value\x7d))`. -/
def mergedToGroups (m : MergedMap) : List StatsGroupOut :=
  m.map fun kv => ⟨kv.1, kv.2.transactional, kv.2.broadcast⟩

/-- stats route `handleFlat`.  `p` is the settled postmark outcome, `i` the
settled instantly outcome; in single-channel mode only the relevant one is
inspected (the other call was never made).  A thrown/rejected awaited call or
a cast `TypeError` escapes to the route catch: 502 `fetchFailed`. -/
def handleFlat (type : Option EmailType)
    (p i : Except String ProviderStatsResult) : StatsHttp :=
  match type with
  | some .transactional =>
      match p with
      | .error msg => ⟨502, .fetchFailed msg⟩
      | .ok raw =>
          match normalizeFlatResult raw with
          | .ok s => ⟨200, .flatSingleT s⟩
          | .error msg => ⟨502, .fetchFailed msg⟩
  | some .broadcast =>
      match i with
      | .error msg => ⟨502, .fetchFailed msg⟩
      | .ok (.flat f) => ⟨200, .flatSingleB (normalizeBroadcastFlat f)⟩
      | .ok (.grouped _) =>
          ⟨502, .fetchFailed "TypeError: Cannot read properties of undefined"⟩
  | none =>
      match (match p with
             | .error msg => .ok (.err msg)
             | .ok raw => (normalizeFlatResult raw).map .stats :
               Except String ChannelField) with
      | .error msg => ⟨502, .fetchFailed msg⟩
      | .ok tField =>
          match (match i with
                 | .error msg => .ok (.err msg)
                 | .ok (.flat f) => .ok (.broadcastStats (normalizeBroadcastFlat f))
                 | .ok (.grouped _) =>
                     .error "TypeError: Cannot read properties of undefined" :
                   Except String ChannelField) with
          | .error msg => ⟨502, .fetchFailed msg⟩
          | .ok bField => ⟨200, .flatAgg tField bField⟩

/-- stats route `handleGrouped`. -/
def handleGrouped (type : Option EmailType)
    (p i : Except String ProviderStatsResult) : StatsHttp :=
  match type with
  | some .transactional =>
      match p with
      | .error msg => ⟨502, .fetchFailed msg⟩
      | .ok (.flat _) => ⟨200, .groups []⟩
      | .ok (.grouped gs) =>
          ⟨200, .groups (gs.map fun g =>
            ⟨g.key, some (normalizePayload g.stats g.recipients), none⟩)⟩
  | some .broadcast =>
      match i with
      | .error msg => ⟨502, .fetchFailed msg⟩
      | .ok (.flat _) => ⟨200, .groups []⟩
      | .ok (.grouped gs) =>
          ⟨200, .groups (gs.map fun g =>
            ⟨g.key, none, some (normalizePayload g.stats g.recipients)⟩)⟩
  | none => ⟨200, .groups (mergedToGroups (mergeGroupsByKey p i))⟩

/-- schemas.ts `GroupByDimensionSchema`. -/
inductive GroupByDimension where
  | brandId
  | campaignId
  | workflowName
  | leadEmail
deriving DecidableEq, Repr

/-- stats route `router.post("/stats")` after validation: grouped when a
groupBy dimension is present, flat otherwise. -/
def statsHandler (type : Option EmailType) (groupBy : Option GroupByDimension)
    (p i : Except String ProviderStatsResult) : StatsHttp :=
  match groupBy with
  | some _ => handleGrouped type p i
  | none => handleFlat type p i

/-! ## Status merger (routes/status.ts) -/

/-- Lead-level state in a status scope. -/
structure LeadScope where
  contacted : Bool
  delivered : Bool
  replied : Bool
  lastDeliveredAt : Option String
deriving DecidableEq, Repr

/-- Email-address-level state in a status scope. -/
structure EmailScope where
  contacted : Bool
  delivered : Bool
  bounced : Bool
  unsubscribed : Bool
  lastDeliveredAt : Option String
deriving DecidableEq, Repr

/-- A `\x7blead, email\x7d` scope pair, reported once campaign-scoped and
once globally. -/
structure ScopePair where
  lead : LeadScope
  email : EmailScope
deriving DecidableEq, Repr

/-- `StatusResult` of the provider clients. -/
structure StatusResult where
  leadId : Option String := none
  email : String
  campaign : ScopePair
  globalScope : ScopePair
deriving DecidableEq, Repr

/-- One item of the status request. -/
structure StatusItem where
  leadId : Option String := none
  email : String
deriving DecidableEq, Repr

/-- The optional per-channel sub-object of a merged status record:
`\x7bcampaign, global\x7d`. -/
structure SubStatus where
  campaign : ScopePair
  globalScope : ScopePair
deriving DecidableEq, Repr

/-- One merged record of the `/status` response. -/
structure MergedStatusEntry where
  leadId : Option String
  email : String
  broadcast : Option SubStatus := none
  transactional : Option SubStatus := none
deriving DecidableEq, Repr

/-- HTTP body of a `/status` response: the merged records, or the error
object of the dual-failure (502) branch. -/
inductive StatusBody where
  | results (rs : List MergedStatusEntry)
  | err (error : String)
deriving DecidableEq, Repr

/-- HTTP status plus body for `/status`. -/
structure StatusHttp where
  status : Nat
  body : StatusBody
deriving DecidableEq, Repr

/-- The per-provider `Map<string, StatusResult>` keyed by email. -/
abbrev StatusMap := List (String × StatusResult)

/-- JS `Map.get` on a status map. -/
def statusMapLookup : StatusMap → String → Option StatusResult
  | [], _ => none
  | (k', v) :: rest, k => if k' = k then some v else statusMapLookup rest k

/-- JS `Map.set` on a status map. -/
def statusMapUpsert : StatusMap → String → StatusResult → StatusMap
  | [], k, v => [(k, v)]
  | (k', v') :: rest, k, v =>
      if k' = k then (k, v) :: rest else (k', v') :: statusMapUpsert rest k v

/-- `for (const r of result.results) map.set(r.email, r)`: build the email
lookup for one fulfilled provider (a rejected provider yields the empty
map). -/
def buildStatusMap : Except String (List StatusResult) → StatusMap
  | .error _ => []
  | .ok rs => rs.foldl (fun m r => statusMapUpsert m r.email r) []

/-- routes/status.ts `router.post("/status")` after validation: both provider
outcomes settled (`allSettled`), dual rejection is a 502, otherwise one
merged record per input item in input order, with the optional per-channel
sub-objects taken from the email maps. -/
def statusHandler (items : List StatusItem)
    (broadcastRes transactionalRes : Except String (List StatusResult)) :
    StatusHttp :=
  let broadcastMap := buildStatusMap broadcastRes
  let transactionalMap := buildStatusMap transactionalRes
  match broadcastRes, transactionalRes with
  | .error _, .error _ => ⟨502, .err "Both upstream services failed"⟩
  | _, _ =>
      ⟨200, .results (items.map fun item =>
        { leadId := item.leadId, email := item.email,
          broadcast := (statusMapLookup broadcastMap item.email).map
            fun r => ⟨r.campaign, r.globalScope⟩,
          transactional := (statusMapLookup transactionalMap item.email).map
            fun r => ⟨r.campaign, r.globalScope⟩ })⟩

/-- Extract the merged records of a `/status` response (empty on the error
body). -/
def statusResults : StatusHttp → List MergedStatusEntry
  | ⟨_, .results rs⟩ => rs
  | ⟨_, .err _⟩ => []

/-! ## String containment helper -/

/-- Substring containment over character lists: the pattern occurs at some
position. -/
def listContains (pat : List Char) : List Char → Bool
  | [] => pat.isEmpty
  | c :: rest => pat.isPrefixOf (c :: rest) || listContains pat rest

/-- `strContains s pat` holds when `pat` occurs as a contiguous substring of
`s`. -/
def strContains (s pat : String) : Bool :=
  listContains pat.toList s.toList

/-! ## Spec-side definition for the merge-commutativity claim -/

/-- Modelled from the spec: the grouped merge with the two providers
processed "in the other order" — the broadcast groups written first (a
wholesale overwrite per group, populating only the broadcast field), the
transactional groups then merged into existing entries.  This is the
provider-order-swapped counterpart of `mergeGroupsByKey`, used only to state
that the merge step is commutative over provider identity. -/
def mergeGroupsByKeySwapped (p i : Except String ProviderStatsResult) :
    MergedMap :=
  let firstPass := (groupedContribution i).foldl (fun m g =>
    mergedUpsert m g.key ⟨none, some (normalizePayload g.stats g.recipients)⟩) []
  (groupedContribution p).foldl (fun m g =>
    let existing := (mergedLookup m g.key).getD ⟨none, none⟩
    mergedUpsert m g.key
      { existing with
        transactional := some (normalizePayload g.stats g.recipients) })
    firstPass

/-! ## Helper lemmas: idempotency store and send dispatch -/

lemma storeLookup_storeUpsert (s : Store) (k : String) (e : StoredEntry) :
    storeLookup (storeUpsert s k e) k = some e := by
  induction s with
  | nil => simp [storeUpsert, storeLookup]
  | cons kv rest ih =>
      by_cases h : kv.1 = k
      · simp [storeUpsert, storeLookup, h]
      · simp [storeUpsert, storeLookup, h, ih]

/-- A dispatch attempt was terminal: the contacted email provider responded
(rather than throwing). -/
def terminalDispatch (env : ProviderEnv) (body : SendBody) : Prop :=
  match body.type with
  | .transactional => ∃ r, env.postmark = .ok r
  | .broadcast => ∃ r, env.instantly = .ok r

lemma handleSend_fresh_key (env : ProviderEnv) (body : SendBody) (k : String)
    (store : Store) (now : Nat) (hk : body.idempotencyKey = some k)
    (hk0 : k ≠ "") (hmiss : (idemGet store k now).1 = none) :
    handleSend env body store now =
      dispatchSend env body (some k) (idemGet store k now).2 now := by
  have hpair : idemGet store k now = (none, (idemGet store k now).2) := by
    rw [← hmiss]
  simp only [handleSend, hk, truthyString, if_neg hk0]
  rw [hpair]

lemma handleSend_cached_hit (env : ProviderEnv) (body : SendBody) (k : String)
    (s : Store) (resp : SendResponse) (code now1 now2 : Nat)
    (hk : body.idempotencyKey = some k) (hk0 : k ≠ "")
    (hfresh : now2 ≤ now1 + TTL_MS) :
    handleSend env body (idemSet s k code resp now1) now2 =
      ⟨⟨code, .ok { resp with deduplicated := some true }⟩,
        idemSet s k code resp now1, 0⟩ := by
  simp only [handleSend, hk, truthyString, if_neg hk0, idemGet, idemSet,
    storeLookup_storeUpsert]
  rw [if_neg (by omega : ¬ now2 > now1 + TTL_MS)]

lemma dispatchSend_transactional_ok (env : ProviderEnv) (body : SendBody)
    (keyOpt : Option String) (store : Store) (now : Nat)
    (r : PostmarkSendResult) (htype : body.type = .transactional)
    (hok : env.postmark = .ok r) :
    dispatchSend env body keyOpt store now =
      ⟨⟨200, .ok { success := true, provider := .transactional,
                   messageId := r.messageId }⟩,
        cacheIfKey keyOpt store 200
          { success := true, provider := .transactional,
            messageId := r.messageId } now, 1⟩ := by
  simp only [dispatchSend, htype, hok]

lemma dispatchSend_broadcast_ok (env : ProviderEnv) (body : SendBody)
    (keyOpt : Option String) (store : Store) (now : Nat)
    (r : AtomicSendResponse) (htype : body.type = .broadcast)
    (hok : env.instantly = .ok r) :
    dispatchSend env body keyOpt store now =
      if r.added = 0 then
        ⟨⟨409, .ok { success := false, provider := .broadcast,
                     error := some "Lead was not added to campaign (possibly duplicate)",
                     campaignId := some r.campaignId }⟩,
          cacheIfKey keyOpt store 409
            { success := false, provider := .broadcast,
              error := some "Lead was not added to campaign (possibly duplicate)",
              campaignId := some r.campaignId } now, 1⟩
      else
        ⟨⟨200, .ok { success := true, provider := .broadcast,
                     messageId := r.leadId,
                     campaignId := some r.campaignId }⟩,
          cacheIfKey keyOpt store 200
            { success := true, provider := .broadcast,
              messageId := r.leadId,
              campaignId := some r.campaignId } now, 1⟩ := by
  simp only [dispatchSend, htype, hok]

lemma dispatchSend_provider_error (env : ProviderEnv) (body : SendBody)
    (keyOpt : Option String) (store : Store) (now : Nat) (msg : String)
    (hfail : (body.type = .transactional ∧ env.postmark = .error msg) ∨
             (body.type = .broadcast ∧ env.instantly = .error msg)) :
    dispatchSend env body keyOpt store now =
      ⟨⟨502, .fail "Upstream service error" msg⟩, store, 1⟩ := by
  rcases hfail with ⟨htype, herr⟩ | ⟨htype, herr⟩ <;>
    simp only [dispatchSend, htype, herr]

lemma dispatchSend_dispatches_one (env : ProviderEnv) (body : SendBody)
    (keyOpt : Option String) (store : Store) (now : Nat) :
    (dispatchSend env body keyOpt store now).dispatches = 1 := by
  cases htype : body.type
  · simp only [dispatchSend, htype]
    cases env.postmark <;> simp
  · simp only [dispatchSend, htype]
    cases env.instantly with
    | error m => simp
    | ok r => by_cases h : r.added = 0 <;> simp [h]

/-! ## Claim theorems: send path -/

/-- C1: for a send request carrying a (truthy) idempotency key that misses
the cache, if the dispatch reaches a terminal outcome (the provider
responded), then a second call with the same key within the TTL returns the
identical `(statusCode, result)` pair with `deduplicated` set on the second
response only, and the second call makes no provider dispatch (one dispatch
across the two calls), whatever the providers would have answered. -/
theorem send_idempotency_second_call_cached
    (env1 env2 : ProviderEnv) (body : SendBody) (store : Store) (k : String)
    (now1 now2 : Nat) (hk : body.idempotencyKey = some k) (hk0 : k ≠ "")
    (hmiss : (idemGet store k now1).1 = none)
    (hterm : terminalDispatch env1 body)
    (hfresh : now2 ≤ now1 + TTL_MS) :
    ∃ r : SendResponse,
      (handleSend env1 body store now1).http.body = .ok r ∧
      r.deduplicated = none ∧
      (handleSend env1 body store now1).dispatches = 1 ∧
      handleSend env2 body (handleSend env1 body store now1).store now2 =
        ⟨⟨(handleSend env1 body store now1).http.status,
          .ok { r with deduplicated := some true }⟩,
          (handleSend env1 body store now1).store, 0⟩ := by
  rw [handleSend_fresh_key env1 body k store now1 hk hk0 hmiss]
  cases htype : body.type
  · obtain ⟨r, hok⟩ : ∃ r, env1.postmark = .ok r := by
      have := hterm
      unfold terminalDispatch at this
      rwa [htype] at this
    rw [dispatchSend_transactional_ok env1 body (some k)
      (idemGet store k now1).2 now1 r htype hok]
    refine ⟨_, rfl, rfl, rfl, ?_⟩
    simp only [cacheIfKey]
    rw [handleSend_cached_hit env2 body k (idemGet store k now1).2 _ 200
      now1 now2 hk hk0 hfresh]
  · obtain ⟨r, hok⟩ : ∃ r, env1.instantly = .ok r := by
      have := hterm
      unfold terminalDispatch at this
      rwa [htype] at this
    rw [dispatchSend_broadcast_ok env1 body (some k)
      (idemGet store k now1).2 now1 r htype hok]
    by_cases hadd : r.added = 0
    · rw [if_pos hadd]
      refine ⟨_, rfl, rfl, rfl, ?_⟩
      simp only [cacheIfKey]
      rw [handleSend_cached_hit env2 body k (idemGet store k now1).2 _ 409
        now1 now2 hk hk0 hfresh]
    · rw [if_neg hadd]
      refine ⟨_, rfl, rfl, rfl, ?_⟩
      simp only [cacheIfKey]
      rw [handleSend_cached_hit env2 body k (idemGet store k now1).2 _ 200
        now1 now2 hk hk0 hfresh]

/-- Witness for C1 at a concrete broadcast request. -/
theorem send_idempotency_second_call_cached_witness :
    ∃ r : SendResponse,
      (handleSend
        ⟨.error "b", .error "p", .ok ⟨true, "c1", some "l1", 1⟩⟩
        ⟨.broadcast, "app", none, none, some "K"⟩ [] 0).http.body = .ok r ∧
      r.deduplicated = none ∧
      (handleSend
        ⟨.error "b", .error "p", .ok ⟨true, "c1", some "l1", 1⟩⟩
        ⟨.broadcast, "app", none, none, some "K"⟩ [] 0).dispatches = 1 ∧
      handleSend ⟨.error "b2", .error "p2", .error "i2"⟩
        ⟨.broadcast, "app", none, none, some "K"⟩
        (handleSend
          ⟨.error "b", .error "p", .ok ⟨true, "c1", some "l1", 1⟩⟩
          ⟨.broadcast, "app", none, none, some "K"⟩ [] 0).store 5 =
        ⟨⟨(handleSend
            ⟨.error "b", .error "p", .ok ⟨true, "c1", some "l1", 1⟩⟩
            ⟨.broadcast, "app", none, none, some "K"⟩ [] 0).http.status,
          .ok { r with deduplicated := some true }⟩,
          (handleSend
            ⟨.error "b", .error "p", .ok ⟨true, "c1", some "l1", 1⟩⟩
            ⟨.broadcast, "app", none, none, some "K"⟩ [] 0).store, 0⟩ :=
  send_idempotency_second_call_cached
    ⟨.error "b", .error "p", .ok ⟨true, "c1", some "l1", 1⟩⟩
    ⟨.error "b2", .error "p2", .error "i2"⟩
    ⟨.broadcast, "app", none, none, some "K"⟩ [] "K" 0 5 rfl (by decide)
    (by decide) ⟨⟨true, "c1", some "l1", 1⟩, rfl⟩ (by decide)

/-- C2: a keyed send whose provider dispatch throws yields a 502 with the
"Upstream service error" marker, writes nothing to the idempotency cache
(the store is unchanged), and a retry with the same key dispatches to the
provider again. -/
theorem send_transport_failure_not_cached
    (env env2 : ProviderEnv) (body : SendBody) (store : Store)
    (k msg : String) (now now2 : Nat)
    (hk : body.idempotencyKey = some k) (hk0 : k ≠ "")
    (habsent : storeLookup store k = none)
    (hfail : (body.type = .transactional ∧ env.postmark = .error msg) ∨
             (body.type = .broadcast ∧ env.instantly = .error msg)) :
    handleSend env body store now =
      ⟨⟨502, .fail "Upstream service error" msg⟩, store, 1⟩ ∧
    (handleSend env2 body (handleSend env body store now).store now2).dispatches
      = 1 := by
  have hget : idemGet store k now = (none, store) := by
    simp [idemGet, habsent]
  have hmiss : (idemGet store k now).1 = none := by rw [hget]
  have h1 : handleSend env body store now =
      ⟨⟨502, .fail "Upstream service error" msg⟩, store, 1⟩ := by
    rw [handleSend_fresh_key env body k store now hk hk0 hmiss, hget,
      dispatchSend_provider_error env body (some k) store now msg hfail]
  refine ⟨h1, ?_⟩
  rw [h1]
  have hmiss2 : (idemGet store k now2).1 = none := by simp [idemGet, habsent]
  rw [handleSend_fresh_key env2 body k store now2 hk hk0 hmiss2]
  exact dispatchSend_dispatches_one ..

/-- Witness for C2 at a concrete transactional request. -/
theorem send_transport_failure_not_cached_witness :
    handleSend ⟨.error "b", .error "down", .error "i"⟩
      ⟨.transactional, "app", none, none, some "K"⟩ [] 7 =
      ⟨⟨502, .fail "Upstream service error" "down"⟩, [], 1⟩ ∧
    (handleSend ⟨.error "b", .ok ⟨some "pm_1"⟩, .error "i"⟩
      ⟨.transactional, "app", none, none, some "K"⟩
      (handleSend ⟨.error "b", .error "down", .error "i"⟩
        ⟨.transactional, "app", none, none, some "K"⟩ [] 7).store 9).dispatches
      = 1 :=
  send_transport_failure_not_cached
    ⟨.error "b", .error "down", .error "i"⟩
    ⟨.error "b", .ok ⟨some "pm_1"⟩, .error "i"⟩
    ⟨.transactional, "app", none, none, some "K"⟩ [] "K" "down" 7 9 rfl
    (by decide) rfl (.inl ⟨rfl, rfl⟩)

/-- C8: a broadcast send whose provider responds with `added = 0` yields a
409 with `success = false`, an error text containing "not added" and the
provider-reported campaign id, and (key present) this terminal outcome is
written to the idempotency cache. -/
theorem broadcast_added_zero_conflict
    (env : ProviderEnv) (body : SendBody) (store : Store) (k : String)
    (now : Nat) (r : AtomicSendResponse)
    (htype : body.type = .broadcast) (hok : env.instantly = .ok r)
    (hzero : r.added = 0)
    (hk : body.idempotencyKey = some k) (hk0 : k ≠ "")
    (hmiss : (idemGet store k now).1 = none) :
    ∃ resp : SendResponse,
      handleSend env body store now =
        ⟨⟨409, .ok resp⟩,
          idemSet (idemGet store k now).2 k 409 resp now, 1⟩ ∧
      resp.success = false ∧
      (∃ e, resp.error = some e ∧ strContains e "not added" = true) ∧
      resp.campaignId = some r.campaignId ∧
      storeLookup (handleSend env body store now).store k =
        some ⟨resp, 409, now + TTL_MS⟩ := by
  rw [handleSend_fresh_key env body k store now hk hk0 hmiss,
    dispatchSend_broadcast_ok env body (some k) (idemGet store k now).2 now r
      htype hok, if_pos hzero]
  refine ⟨_, rfl, rfl, ⟨_, rfl, by decide⟩, rfl, ?_⟩
  simp only [cacheIfKey, idemSet]
  exact storeLookup_storeUpsert ..

/-- Witness for C8 at a concrete request. -/
theorem broadcast_added_zero_conflict_witness :
    ∃ resp : SendResponse,
      handleSend ⟨.error "b", .error "p", .ok ⟨true, "c9", none, 0⟩⟩
        ⟨.broadcast, "app", none, none, some "K"⟩ [] 3 =
        ⟨⟨409, .ok resp⟩,
          idemSet (idemGet [] "K" 3).2 "K" 409 resp 3, 1⟩ ∧
      resp.success = false ∧
      (∃ e, resp.error = some e ∧ strContains e "not added" = true) ∧
      resp.campaignId = some "c9" ∧
      storeLookup (handleSend ⟨.error "b", .error "p", .ok ⟨true, "c9", none, 0⟩⟩
        ⟨.broadcast, "app", none, none, some "K"⟩ [] 3).store "K" =
        some ⟨resp, 409, 3 + TTL_MS⟩ :=
  broadcast_added_zero_conflict
    ⟨.error "b", .error "p", .ok ⟨true, "c9", none, 0⟩⟩
    ⟨.broadcast, "app", none, none, some "K"⟩ [] "K" 3 ⟨true, "c9", none, 0⟩
    rfl rfl rfl rfl (by decide) (by decide)

/-- C10: a broadcast send whose provider responds with `added > 0` but a
null `leadId` yields a 200 with `success = true`, the campaign id present
and no `messageId` (absent, since `leadId ?? undefined` drops the null), and
(key present) this `messageId`-less result is the one written to the
cache. -/
theorem broadcast_null_leadId_success
    (env : ProviderEnv) (body : SendBody) (store : Store) (k : String)
    (now : Nat) (r : AtomicSendResponse)
    (htype : body.type = .broadcast) (hok : env.instantly = .ok r)
    (hpos : 0 < r.added) (hnull : r.leadId = none)
    (hk : body.idempotencyKey = some k) (hk0 : k ≠ "")
    (hmiss : (idemGet store k now).1 = none) :
    ∃ resp : SendResponse,
      handleSend env body store now =
        ⟨⟨200, .ok resp⟩,
          idemSet (idemGet store k now).2 k 200 resp now, 1⟩ ∧
      resp.success = true ∧
      resp.campaignId = some r.campaignId ∧
      resp.messageId = none ∧
      storeLookup (handleSend env body store now).store k =
        some ⟨resp, 200, now + TTL_MS⟩ := by
  rw [handleSend_fresh_key env body k store now hk hk0 hmiss,
    dispatchSend_broadcast_ok env body (some k) (idemGet store k now).2 now r
      htype hok, if_neg (by omega : ¬ r.added = 0)]
  refine ⟨_, rfl, rfl, rfl, hnull, ?_⟩
  simp only [cacheIfKey, idemSet]
  exact storeLookup_storeUpsert ..

/-- Witness for C10 at a concrete request. -/
theorem broadcast_null_leadId_success_witness :
    ∃ resp : SendResponse,
      handleSend ⟨.error "b", .error "p", .ok ⟨true, "c3", none, 1⟩⟩
        ⟨.broadcast, "app", none, none, some "K"⟩ [] 4 =
        ⟨⟨200, .ok resp⟩,
          idemSet (idemGet [] "K" 4).2 "K" 200 resp 4, 1⟩ ∧
      resp.success = true ∧
      resp.campaignId = some "c3" ∧
      resp.messageId = none ∧
      storeLookup (handleSend ⟨.error "b", .error "p", .ok ⟨true, "c3", none, 1⟩⟩
        ⟨.broadcast, "app", none, none, some "K"⟩ [] 4).store "K" =
        some ⟨resp, 200, 4 + TTL_MS⟩ :=
  broadcast_null_leadId_success
    ⟨.error "b", .error "p", .ok ⟨true, "c3", none, 1⟩⟩
    ⟨.broadcast, "app", none, none, some "K"⟩ [] "K" 4 ⟨true, "c3", none, 1⟩
    rfl rfl (by decide) rfl rfl (by decide) (by decide)

/-! ## Claim theorems: normalization, signature, dual failure, grouped merge -/

/-- C5: normalization is total — the output type `Stats` has no optional
field, each reply-subtype counter absent from the raw payload normalizes to
0, and a payload without an explicit recipients count falls back to the sent
counter. -/
theorem normalize_payload_defaults (raw : ProviderStatsPayload)
    (rec : Option Nat) :
    (normalizePayload { raw with repliesWillingToMeet := none } rec).repliesWillingToMeet = 0 ∧
    (normalizePayload { raw with repliesInterested := none } rec).repliesInterested = 0 ∧
    (normalizePayload { raw with repliesNotInterested := none } rec).repliesNotInterested = 0 ∧
    (normalizePayload { raw with repliesOutOfOffice := none } rec).repliesOutOfOffice = 0 ∧
    (normalizePayload { raw with repliesUnsubscribe := none } rec).repliesUnsubscribe = 0 ∧
    (normalizePayload raw none).recipients = raw.emailsSent :=
  ⟨rfl, rfl, rfl, rfl, rfl, rfl⟩

/-- C6: broadcast-channel footer composition yields the empty string for
every caller and brand URL; transactional composition for a non-distinguished
caller contains the unsubscribe control and never the branded signature block
(marked by its personal attribution line); and with the brand URL absent the
distinguished caller's transactional signature carries the `BRAND_URL`
placeholder inside the attribution `href`. -/
theorem signature_policy (appId : String) (brandUrl : Option String) :
    buildSignature .broadcast appId brandUrl = "" ∧
    (appId ≠ MCPFACTORY_APP_ID →
      strContains (buildSignature .transactional appId brandUrl)
        "href=\"\x7b\x7b\x7bpm:unsubscribe\x7d\x7d\x7d\"" = true ∧
      strContains (buildSignature .transactional appId brandUrl)
        "Kevin Lourd" = false) ∧
    strContains (buildSignature .transactional MCPFACTORY_APP_ID none)
      "href=\"BRAND_URL\"" = true := by
  refine ⟨rfl, fun h => ?_, by decide⟩
  have hdef : buildSignature .transactional appId brandUrl =
      buildDefaultFooter .transactional := by
    simp [buildSignature, h]
  rw [hdef]
  exact ⟨by decide, by decide⟩

/-- Witness for C6 at a concrete non-distinguished caller. -/
theorem signature_policy_witness :
    buildSignature .broadcast "acme" none = "" ∧
    strContains (buildSignature .transactional "acme" none)
      "href=\"\x7b\x7b\x7bpm:unsubscribe\x7d\x7d\x7d\"" = true ∧
    strContains (buildSignature .transactional "acme" none)
      "Kevin Lourd" = false := by
  obtain ⟨h1, h2, _⟩ := signature_policy "acme" none
  obtain ⟨h3, h4⟩ := h2 (by decide)
  exact ⟨h1, h3, h4⟩

/-- C3: dual-provider-failure semantics differ by endpoint — grouped stats
with both providers rejected is a 200 with an empty group list, status with
both providers rejected is a 502 with the "Both upstream services failed"
marker, and flat aggregate stats with both providers rejected is a 200 with
both channel fields set to error objects. -/
theorem dual_provider_failure_semantics (mp mi : String)
    (items : List StatusItem) (d : GroupByDimension) :
    statsHandler none (some d) (.error mp) (.error mi) = ⟨200, .groups []⟩ ∧
    statusHandler items (.error mi) (.error mp) =
      ⟨502, .err "Both upstream services failed"⟩ ∧
    statsHandler none none (.error mp) (.error mi) =
      ⟨200, .flatAgg (.err mp) (.err mi)⟩ :=
  ⟨rfl, rfl, rfl⟩

/-- C4: merging grouped stats for providers returning key sets `{A, B}` and
`{A, C}` (all distinct) yields exactly three groups — `A` with both channel
fields populated, `B` transactional-only, `C` broadcast-only, the missing
sides absent rather than zero-filled. -/
theorem grouped_merge_disjoint_keys
    (A B C : String) (hAB : A ≠ B) (hAC : A ≠ C) (hBC : B ≠ C)
    (sa sb sc sd : ProviderStatsPayload) (ra rb rc rd : Option Nat) :
    handleGrouped none
        (.ok (.grouped [⟨A, sa, ra⟩, ⟨B, sb, rb⟩]))
        (.ok (.grouped [⟨A, sc, rc⟩, ⟨C, sd, rd⟩])) =
      ⟨200, .groups
        [⟨A, some (normalizePayload sa ra), some (normalizePayload sc rc)⟩,
         ⟨B, some (normalizePayload sb rb), none⟩,
         ⟨C, none, some (normalizePayload sd rd)⟩]⟩ := by
  simp [handleGrouped, mergeGroupsByKey, groupedContribution,
    addTransactionalGroups, addBroadcastGroups, mergedToGroups,
    mergedUpsert, mergedLookup, hAB, hAC, hBC]

/-- A raw payload with just the six core counters (all reply subtypes
absent), used by concrete witnesses. -/
def corePayload (a b c d e f : Nat) : ProviderStatsPayload :=
  { emailsSent := a, emailsDelivered := b, emailsOpened := c,
    emailsClicked := d, emailsReplied := e, emailsBounced := f }

/-- Witness for C4 at concrete keys and payloads. -/
theorem grouped_merge_disjoint_keys_witness :
    handleGrouped none
        (.ok (.grouped [⟨"brandA", corePayload 1 2 3 4 5 6, some 7⟩,
                        ⟨"brandB", corePayload 8 9 10 11 12 13, none⟩]))
        (.ok (.grouped [⟨"brandA", corePayload 14 15 16 17 18 19, none⟩,
                        ⟨"brandC", corePayload 20 21 22 23 24 25, some 26⟩])) =
      ⟨200, .groups
        [⟨"brandA", some (normalizePayload (corePayload 1 2 3 4 5 6) (some 7)),
                    some (normalizePayload (corePayload 14 15 16 17 18 19) none)⟩,
         ⟨"brandB", some (normalizePayload (corePayload 8 9 10 11 12 13) none),
                    none⟩,
         ⟨"brandC", none,
                    some (normalizePayload (corePayload 20 21 22 23 24 25) (some 26))⟩]⟩ :=
  grouped_merge_disjoint_keys "brandA" "brandB" "brandC"
    (by decide) (by decide) (by decide)
    (corePayload 1 2 3 4 5 6) (corePayload 8 9 10 11 12 13)
    (corePayload 14 15 16 17 18 19) (corePayload 20 21 22 23 24 25)
    (some 7) none none (some 26)

/-! ## Helper lemmas: grouped-merge lookup characterization -/

lemma mergedLookup_mergedUpsert (m : MergedMap) (k k' : String)
    (v : MergedVal) :
    mergedLookup (mergedUpsert m k v) k' =
      if k = k' then some v else mergedLookup m k' := by
  induction m with
  | nil => simp [mergedUpsert, mergedLookup]
  | cons kv rest ih =>
      by_cases h : kv.1 = k
      · by_cases h2 : k = k'
        · simp [mergedUpsert, mergedLookup, h, h2]
        · simp [mergedUpsert, mergedLookup, h, h2]
      · by_cases h2 : kv.1 = k'
        · have hkk : ¬ k = k' := fun he => h (by rw [he, h2])
          have hkk2 : ¬ k' = k := fun he => hkk he.symm
          simp [mergedUpsert, mergedLookup, h, h2, hkk, hkk2]
        · simp [mergedUpsert, mergedLookup, h, h2, ih]

/-- The last group of the list with the given key, if any (the one whose
`Map.set` wins). -/
def lastMatch : List StatsGroupRaw → String → Option StatsGroupRaw
  | [], _ => none
  | g :: rest, k =>
      match lastMatch rest k with
      | some g' => some g'
      | none => if g.key = k then some g else none

lemma lookup_addTransactionalGroups (gs : List StatsGroupRaw) (m : MergedMap)
    (k : String) :
    mergedLookup (addTransactionalGroups m gs) k =
      match lastMatch gs k with
      | some g => some ⟨some (normalizePayload g.stats g.recipients), none⟩
      | none => mergedLookup m k := by
  induction gs generalizing m with
  | nil => simp [addTransactionalGroups, lastMatch]
  | cons g rest ih =>
      show mergedLookup (addTransactionalGroups (mergedUpsert m g.key _) rest) k = _
      rw [ih]
      cases hrest : lastMatch rest k with
      | some g' => simp [lastMatch, hrest]
      | none =>
          simp only [lastMatch, hrest]
          rw [mergedLookup_mergedUpsert]
          by_cases h : g.key = k <;> simp [h]

lemma lookup_broadcastFirstPass (gs : List StatsGroupRaw) (m : MergedMap)
    (k : String) :
    mergedLookup (gs.foldl (fun m g =>
        mergedUpsert m g.key
          ⟨none, some (normalizePayload g.stats g.recipients)⟩) m) k =
      match lastMatch gs k with
      | some g => some ⟨none, some (normalizePayload g.stats g.recipients)⟩
      | none => mergedLookup m k := by
  induction gs generalizing m with
  | nil => simp [lastMatch]
  | cons g rest ih =>
      rw [List.foldl_cons, ih]
      cases hrest : lastMatch rest k with
      | some g' => simp [lastMatch, hrest]
      | none =>
          simp only [lastMatch, hrest]
          rw [mergedLookup_mergedUpsert]
          by_cases h : g.key = k <;> simp [h]

lemma lookup_addBroadcastGroups (gs : List StatsGroupRaw) (m : MergedMap)
    (k : String) :
    mergedLookup (addBroadcastGroups m gs) k =
      match lastMatch gs k with
      | some g =>
          some ⟨((mergedLookup m k).getD ⟨none, none⟩).transactional,
                some (normalizePayload g.stats g.recipients)⟩
      | none => mergedLookup m k := by
  induction gs generalizing m with
  | nil => simp [addBroadcastGroups, lastMatch]
  | cons g rest ih =>
      show mergedLookup (addBroadcastGroups (mergedUpsert m g.key _) rest) k = _
      rw [ih]
      have hstep : mergedLookup (mergedUpsert m g.key
          { (mergedLookup m g.key).getD ⟨none, none⟩ with
            broadcast := some (normalizePayload g.stats g.recipients) }) k =
          if g.key = k then
            some ⟨((mergedLookup m k).getD ⟨none, none⟩).transactional,
                  some (normalizePayload g.stats g.recipients)⟩
          else mergedLookup m k := by
        rw [mergedLookup_mergedUpsert]
        by_cases h : g.key = k <;> simp [h]
      cases hrest : lastMatch rest k with
      | some g' =>
          simp only [lastMatch, hrest]
          rw [hstep]
          by_cases h : g.key = k <;> simp [h]
      | none =>
          simp only [lastMatch, hrest]
          rw [hstep]
          by_cases h : g.key = k <;> simp [h]

lemma lookup_transactionalSecondPass (gs : List StatsGroupRaw) (m : MergedMap)
    (k : String) :
    mergedLookup (gs.foldl (fun m g =>
        mergedUpsert m g.key
          { (mergedLookup m g.key).getD ⟨none, none⟩ with
            transactional := some (normalizePayload g.stats g.recipients) }) m) k =
      match lastMatch gs k with
      | some g =>
          some ⟨some (normalizePayload g.stats g.recipients),
                ((mergedLookup m k).getD ⟨none, none⟩).broadcast⟩
      | none => mergedLookup m k := by
  induction gs generalizing m with
  | nil => simp [lastMatch]
  | cons g rest ih =>
      rw [List.foldl_cons, ih]
      have hstep : mergedLookup (mergedUpsert m g.key
          { (mergedLookup m g.key).getD ⟨none, none⟩ with
            transactional := some (normalizePayload g.stats g.recipients) }) k =
          if g.key = k then
            some ⟨some (normalizePayload g.stats g.recipients),
                  ((mergedLookup m k).getD ⟨none, none⟩).broadcast⟩
          else mergedLookup m k := by
        rw [mergedLookup_mergedUpsert]
        by_cases h : g.key = k <;> simp [h]
      cases hrest : lastMatch rest k with
      | some g' =>
          simp only [lastMatch, hrest]
          rw [hstep]
          by_cases h : g.key = k <;> simp [h]
      | none =>
          simp only [lastMatch, hrest]
          rw [hstep]
          by_cases h : g.key = k <;> simp [h]

/-- C9: the merge step of the dual-provider grouped aggregation is
commutative over provider identity — processing the transactional groups
first (as the source does) and processing the broadcast groups first yield
the same key→per-channel-stats mapping for every key. -/
theorem grouped_merge_commutative (p i : Except String ProviderStatsResult)
    (k : String) :
    mergedLookup (mergeGroupsByKey p i) k =
      mergedLookup (mergeGroupsByKeySwapped p i) k := by
  rw [mergeGroupsByKey, mergeGroupsByKeySwapped]
  rw [lookup_addBroadcastGroups, lookup_transactionalSecondPass,
    lookup_addTransactionalGroups, lookup_broadcastFirstPass]
  cases hP : lastMatch (groupedContribution p) k <;>
    cases hI : lastMatch (groupedContribution i) k <;>
      simp [mergedLookup]

/-! ## Helper lemmas: status email-map characterization -/

lemma statusMapLookup_statusMapUpsert (m : StatusMap) (k k' : String)
    (v : StatusResult) :
    statusMapLookup (statusMapUpsert m k v) k' =
      if k = k' then some v else statusMapLookup m k' := by
  induction m with
  | nil => simp [statusMapUpsert, statusMapLookup]
  | cons kv rest ih =>
      by_cases h : kv.1 = k
      · by_cases h2 : k = k'
        · simp [statusMapUpsert, statusMapLookup, h, h2]
        · simp [statusMapUpsert, statusMapLookup, h, h2]
      · by_cases h2 : kv.1 = k'
        · have hkk : ¬ k = k' := fun he => h (by rw [he, h2])
          have hkk2 : ¬ k' = k := fun he => hkk he.symm
          simp [statusMapUpsert, statusMapLookup, h, h2, hkk, hkk2]
        · simp [statusMapUpsert, statusMapLookup, h, h2, ih]

/-- The last provider status result with the given email, if any (the one
whose `Map.set` wins). -/
def lastStatusMatch : List StatusResult → String → Option StatusResult
  | [], _ => none
  | r :: rest, e =>
      match lastStatusMatch rest e with
      | some r' => some r'
      | none => if r.email = e then some r else none

lemma lookup_statusMap_foldl (rs : List StatusResult) (m : StatusMap)
    (e : String) :
    statusMapLookup (rs.foldl (fun m r => statusMapUpsert m r.email r) m) e =
      match lastStatusMatch rs e with
      | some r => some r
      | none => statusMapLookup m e := by
  induction rs generalizing m with
  | nil => simp [lastStatusMatch]
  | cons r rest ih =>
      rw [List.foldl_cons, ih]
      cases hrest : lastStatusMatch rest e with
      | some r' => simp [lastStatusMatch, hrest]
      | none =>
          simp only [lastStatusMatch, hrest]
          rw [statusMapLookup_statusMapUpsert]
          by_cases h : r.email = e <;> simp [h]

lemma lookup_buildStatusMap (rs : List StatusResult) (e : String) :
    statusMapLookup (buildStatusMap (.ok rs)) e = lastStatusMatch rs e := by
  show statusMapLookup (rs.foldl (fun m r => statusMapUpsert m r.email r) []) e = _
  rw [lookup_statusMap_foldl]
  cases h : lastStatusMatch rs e <;> simp [statusMapLookup]

lemma lastStatusMatch_isSome_iff (rs : List StatusResult) (e : String) :
    (lastStatusMatch rs e).isSome ↔ ∃ r ∈ rs, r.email = e := by
  induction rs with
  | nil => simp [lastStatusMatch]
  | cons r rest ih =>
      cases hrest : lastStatusMatch rest e with
      | some r' =>
          have hmem : ∃ x ∈ rest, x.email = e := by
            rw [← ih, hrest]
            rfl
          obtain ⟨x, hx, hxe⟩ := hmem
          simp only [lastStatusMatch, hrest]
          constructor
          · intro _
            exact ⟨x, List.mem_cons_of_mem r hx, hxe⟩
          · intro _
            rfl
      | none =>
          simp only [lastStatusMatch, hrest]
          constructor
          · intro hs
            by_cases h : r.email = e
            · exact ⟨r, List.mem_cons_self r rest, h⟩
            · rw [if_neg h] at hs
              cases hs
          · rintro ⟨x, hx, hxe⟩
            rcases List.mem_cons.mp hx with heq | hmem
            · rw [heq] at hxe
              simp [hxe]
            · exact absurd ((ih.mpr ⟨x, hmem, hxe⟩)) (by simp [hrest])

/-- A settled provider call was rejected. -/
def isRejected {α : Type} (x : Except String α) : Prop :=
  ∃ m, x = .error m

/-- C7: when the two provider status queries are not both rejected, the
response is a 200 with exactly one merged record per input item in input
order; each record carries the item's lead id and email, its `broadcast`
sub-object is present iff the broadcast provider returned a match for that
email (and then holds that match's campaign and global scopes), and likewise
for `transactional`. -/
theorem status_merge_per_item
    (items : List StatusItem) (bRes tRes : Except String (List StatusResult))
    (item : StatusItem) (i : Nat)
    (hnot : ¬(isRejected bRes ∧ isRejected tRes))
    (hitem : items[i]? = some item) :
    (statusHandler items bRes tRes).status = 200 ∧
    (statusResults (statusHandler items bRes tRes)).length = items.length ∧
    ∃ entry, (statusResults (statusHandler items bRes tRes))[i]? = some entry ∧
      entry.leadId = item.leadId ∧
      entry.email = item.email ∧
      (entry.broadcast.isSome ↔
        ∃ rs, bRes = .ok rs ∧ ∃ r ∈ rs, r.email = item.email) ∧
      (entry.transactional.isSome ↔
        ∃ rs, tRes = .ok rs ∧ ∃ r ∈ rs, r.email = item.email) ∧
      entry.broadcast = (statusMapLookup (buildStatusMap bRes) item.email).map
        (fun r => ⟨r.campaign, r.globalScope⟩) ∧
      entry.transactional =
        (statusMapLookup (buildStatusMap tRes) item.email).map
          (fun r => ⟨r.campaign, r.globalScope⟩) := by
  have hiff : ∀ (x : Except String (List StatusResult)),
      ((statusMapLookup (buildStatusMap x) item.email).map
        (fun r : StatusResult =>
          (⟨r.campaign, r.globalScope⟩ : SubStatus))).isSome ↔
      ∃ rs, x = .ok rs ∧ ∃ r ∈ rs, r.email = item.email := by
    intro x
    cases x with
    | error m => simp [buildStatusMap, statusMapLookup]
    | ok rs =>
        rw [lookup_buildStatusMap]
        simp only [Option.isSome_map']
        rw [lastStatusMatch_isSome_iff]
        simp
  have hshape : statusHandler items bRes tRes =
      ⟨200, .results (items.map fun it =>
        { leadId := it.leadId, email := it.email,
          broadcast := (statusMapLookup (buildStatusMap bRes) it.email).map
            fun r => ⟨r.campaign, r.globalScope⟩,
          transactional :=
            (statusMapLookup (buildStatusMap tRes) it.email).map
              fun r => ⟨r.campaign, r.globalScope⟩ })⟩ := by
    cases bRes with
    | error mb =>
        cases tRes with
        | error mt => exact absurd ⟨⟨mb, rfl⟩, ⟨mt, rfl⟩⟩ hnot
        | ok ts => rfl
    | ok bs => cases tRes <;> rfl
  rw [hshape]
  refine ⟨rfl, by simp [statusResults], ?_⟩
  refine ⟨{ leadId := item.leadId, email := item.email,
            broadcast := (statusMapLookup (buildStatusMap bRes) item.email).map
              fun r => ⟨r.campaign, r.globalScope⟩,
            transactional :=
              (statusMapLookup (buildStatusMap tRes) item.email).map
                fun r => ⟨r.campaign, r.globalScope⟩ },
          ?_, rfl, rfl, hiff bRes, hiff tRes, rfl, rfl⟩
  simp [statusResults, hitem]

/-- A concrete scope pair used by the C7 witness. -/
def demoScope : ScopePair :=
  ⟨⟨true, true, false, some "2024-01-01"⟩,
   ⟨true, true, false, false, some "2024-01-01"⟩⟩

/-- Witness for C7: one item, broadcast provider matching, transactional
provider rejected. -/
theorem status_merge_per_item_witness :
    (statusHandler [⟨some "L1", "a@x.com"⟩]
      (.ok [⟨none, "a@x.com", demoScope, demoScope⟩]) (.error "down")).status
      = 200 ∧
    (statusResults (statusHandler [⟨some "L1", "a@x.com"⟩]
      (.ok [⟨none, "a@x.com", demoScope, demoScope⟩])
      (.error "down"))).length = 1 ∧
    ∃ entry, (statusResults (statusHandler [⟨some "L1", "a@x.com"⟩]
        (.ok [⟨none, "a@x.com", demoScope, demoScope⟩])
        (.error "down")))[0]? = some entry ∧
      entry.leadId = some "L1" ∧
      entry.email = "a@x.com" ∧
      (entry.broadcast.isSome ↔
        ∃ rs, (.ok [⟨none, "a@x.com", demoScope, demoScope⟩] :
            Except String (List StatusResult)) = .ok rs ∧
          ∃ r ∈ rs, r.email = "a@x.com") ∧
      (entry.transactional.isSome ↔
        ∃ rs, (.error "down" : Except String (List StatusResult)) = .ok rs ∧
          ∃ r ∈ rs, r.email = "a@x.com") ∧
      entry.broadcast = (statusMapLookup
        (buildStatusMap (.ok [⟨none, "a@x.com", demoScope, demoScope⟩]))
        "a@x.com").map (fun r => ⟨r.campaign, r.globalScope⟩) ∧
      entry.transactional = (statusMapLookup
        (buildStatusMap (.error "down" : Except String (List StatusResult)))
        "a@x.com").map (fun r => ⟨r.campaign, r.globalScope⟩) :=
  status_merge_per_item [⟨some "L1", "a@x.com"⟩]
    (.ok [⟨none, "a@x.com", demoScope, demoScope⟩]) (.error "down")
    ⟨some "L1", "a@x.com"⟩ 0
    (fun h => by
      obtain ⟨⟨m, hm⟩, _⟩ := h
      cases hm)
    rfl

end EmailSvc
